import Mathlib

/-!
Verification of the Poseidon2 permutation core and its dedicated MDS gate,
shallowly embedded from `src/plonky2/src/hash/poseidon2.rs`,
`src/plonky2/src/hash/poseidon2_goldilocks.rs` and
`src/plonky2/src/gates/poseidon2_mds.rs`.

The base field is the Goldilocks field, modelled as `ZMod P` with
`P = 2^64 - 2^32 + 1`.  The `u128` deferred-reduction arithmetic of
`mds_layer` and `mds_partial_layer_fast` is mirrored at the level of plain
natural numbers; extension fields are modelled as arbitrary commutative rings
together with a ring homomorphism from the base field (the lane-wise
embedding).
-/

namespace Poseidon2

/-- The Goldilocks prime `2^64 - 2^32 + 1`. -/
def P : ℕ := 18446744069414584321

/-- The Goldilocks base field (the repository's external field capability,
instantiated for `impl Poseidon for GoldilocksField`). -/
abbrev Gold := ZMod P

instance : NeZero P := ⟨by decide⟩

/-- `HALF_N_FULL_ROUNDS` from `poseidon2.rs`. -/
def HALF_N_FULL_ROUNDS : ℕ := 4

/-- `N_FULL_ROUNDS_TOTAL = 2 * HALF_N_FULL_ROUNDS`. -/
def N_FULL_ROUNDS_TOTAL : ℕ := 2 * HALF_N_FULL_ROUNDS

/-- `N_PARTIAL_ROUNDS` from `poseidon2.rs`. -/
def N_PARTIAL_ROUNDS : ℕ := 22

/-- `N_ROUNDS = N_FULL_ROUNDS_TOTAL + N_PARTIAL_ROUNDS`. -/
def N_ROUNDS : ℕ := N_FULL_ROUNDS_TOTAL + N_PARTIAL_ROUNDS

/-- `ALL_ROUND_CONSTANTS: [u64; MAX_WIDTH * N_ROUNDS]` from `poseidon2.rs`,
row-major: entry `lane + 12 * round`. -/
def ALL_ROUND_CONSTANTS : List ℕ := [
  0xe034a8785fd284a7, 0xe2463f1ea42e1b80, 0x048742e681ae290a, 0xe4af50ade990154c, 0x8b13ffaaf4f78f8a, 0xe3fbead7dccd8d63, 0x631a47705eb92bf8, 0x88fbbb8698548659, 0x74cd2003b0f349c9, 0xe16a3df6764a3f5d, 0x57ce63971a71aaa2, 0xdc1f7fd3e7823051,
  0xbb8423be34c18d7a, 0xf8bc5a2a0c1b3d6d, 0xf1a01bbd6f7123e5, 0xed960a080f5e348b, 0x1b9c0c1e87e2390e, 0x18c83caf729a613e, 0x671ab9fe037a72c4, 0x508565f67d4c276a, 0x4d2cd8827a482590, 0xa48e11e84dd3500b, 0x825a8c955fc2442b, 0xf573a6ee07cddc68,
  0x7dd3f19c73a39e0b, 0xcc0f13537a796fa6, 0x1d9006bfaedac57f, 0x4705f69b68b0b7de, 0x5b62bfb718bcc57f, 0x879d821770563827, 0x3da5ccb7f8dff0e3, 0xb49d6a706923fc5b, 0xb6a0babe883a969d, 0x2984f9b055401960, 0xcd3496f05511d79d, 0x4791da5d63854fc5,
  0xdb7344d0580a39d4, 0x5aedc4dad1de120a, 0x5e1bdc1fb8e1abf0, 0x3904c09a0e46747c, 0xb54a0e23ab85ddcd, 0xc0c3cf05bccbdb3a, 0xb362076a73baf7e9, 0x212c953d81a5d5ba, 0x212d4cc965d898bd, 0xdd44ddd0f41509b9, 0x8931329fa67823c0, 0xc65510f4d2a873be,
  0xe3ecbb6ba1e16211, 0x0000000000000000, 0x0000000000000000, 0x0000000000000000, 0x0000000000000000, 0x0000000000000000, 0x0000000000000000, 0x0000000000000000, 0x0000000000000000, 0x0000000000000000, 0x0000000000000000, 0x0000000000000000,
  0x70f5b3266792bbb6, 0x0000000000000000, 0x0000000000000000, 0x0000000000000000, 0x0000000000000000, 0x0000000000000000, 0x0000000000000000, 0x0000000000000000, 0x0000000000000000, 0x0000000000000000, 0x0000000000000000, 0x0000000000000000,
  0xe7560e690634757e, 0x0000000000000000, 0x0000000000000000, 0x0000000000000000, 0x0000000000000000, 0x0000000000000000, 0x0000000000000000, 0x0000000000000000, 0x0000000000000000, 0x0000000000000000, 0x0000000000000000, 0x0000000000000000,
  0xafd0202bc7eaf66e, 0x0000000000000000, 0x0000000000000000, 0x0000000000000000, 0x0000000000000000, 0x0000000000000000, 0x0000000000000000, 0x0000000000000000, 0x0000000000000000, 0x0000000000000000, 0x0000000000000000, 0x0000000000000000,
  0x349f4c5871f220fd, 0x0000000000000000, 0x0000000000000000, 0x0000000000000000, 0x0000000000000000, 0x0000000000000000, 0x0000000000000000, 0x0000000000000000, 0x0000000000000000, 0x0000000000000000, 0x0000000000000000, 0x0000000000000000,
  0x3697eb3e31529e0d, 0x0000000000000000, 0x0000000000000000, 0x0000000000000000, 0x0000000000000000, 0x0000000000000000, 0x0000000000000000, 0x0000000000000000, 0x0000000000000000, 0x0000000000000000, 0x0000000000000000, 0x0000000000000000,
  0x7735d5b0622d9900, 0x0000000000000000, 0x0000000000000000, 0x0000000000000000, 0x0000000000000000, 0x0000000000000000, 0x0000000000000000, 0x0000000000000000, 0x0000000000000000, 0x0000000000000000, 0x0000000000000000, 0x0000000000000000,
  0x5f5b58b9cf997668, 0x0000000000000000, 0x0000000000000000, 0x0000000000000000, 0x0000000000000000, 0x0000000000000000, 0x0000000000000000, 0x0000000000000000, 0x0000000000000000, 0x0000000000000000, 0x0000000000000000, 0x0000000000000000,
  0x645534b6548af9d9, 0x0000000000000000, 0x0000000000000000, 0x0000000000000000, 0x0000000000000000, 0x0000000000000000, 0x0000000000000000, 0x0000000000000000, 0x0000000000000000, 0x0000000000000000, 0x0000000000000000, 0x0000000000000000,
  0x4232d29d91a426a8, 0x0000000000000000, 0x0000000000000000, 0x0000000000000000, 0x0000000000000000, 0x0000000000000000, 0x0000000000000000, 0x0000000000000000, 0x0000000000000000, 0x0000000000000000, 0x0000000000000000, 0x0000000000000000,
  0xb987278aed485d35, 0x0000000000000000, 0x0000000000000000, 0x0000000000000000, 0x0000000000000000, 0x0000000000000000, 0x0000000000000000, 0x0000000000000000, 0x0000000000000000, 0x0000000000000000, 0x0000000000000000, 0x0000000000000000,
  0x6dabeef669bb406e, 0x0000000000000000, 0x0000000000000000, 0x0000000000000000, 0x0000000000000000, 0x0000000000000000, 0x0000000000000000, 0x0000000000000000, 0x0000000000000000, 0x0000000000000000, 0x0000000000000000, 0x0000000000000000,
  0x35ee78288b749d40, 0x0000000000000000, 0x0000000000000000, 0x0000000000000000, 0x0000000000000000, 0x0000000000000000, 0x0000000000000000, 0x0000000000000000, 0x0000000000000000, 0x0000000000000000, 0x0000000000000000, 0x0000000000000000,
  0x6dcd560f14af0fc3, 0x0000000000000000, 0x0000000000000000, 0x0000000000000000, 0x0000000000000000, 0x0000000000000000, 0x0000000000000000, 0x0000000000000000, 0x0000000000000000, 0x0000000000000000, 0x0000000000000000, 0x0000000000000000,
  0x71ed3dc007ea6383, 0x0000000000000000, 0x0000000000000000, 0x0000000000000000, 0x0000000000000000, 0x0000000000000000, 0x0000000000000000, 0x0000000000000000, 0x0000000000000000, 0x0000000000000000, 0x0000000000000000, 0x0000000000000000,
  0x8b6b51caab7f5b6f, 0x0000000000000000, 0x0000000000000000, 0x0000000000000000, 0x0000000000000000, 0x0000000000000000, 0x0000000000000000, 0x0000000000000000, 0x0000000000000000, 0x0000000000000000, 0x0000000000000000, 0x0000000000000000,
  0xcf2e8cc4181dbfa8, 0x0000000000000000, 0x0000000000000000, 0x0000000000000000, 0x0000000000000000, 0x0000000000000000, 0x0000000000000000, 0x0000000000000000, 0x0000000000000000, 0x0000000000000000, 0x0000000000000000, 0x0000000000000000,
  0xa01d3f1c306f825a, 0x0000000000000000, 0x0000000000000000, 0x0000000000000000, 0x0000000000000000, 0x0000000000000000, 0x0000000000000000, 0x0000000000000000, 0x0000000000000000, 0x0000000000000000, 0x0000000000000000, 0x0000000000000000,
  0xccee646a5d8ddb87, 0x0000000000000000, 0x0000000000000000, 0x0000000000000000, 0x0000000000000000, 0x0000000000000000, 0x0000000000000000, 0x0000000000000000, 0x0000000000000000, 0x0000000000000000, 0x0000000000000000, 0x0000000000000000,
  0x70df6f277cbaffeb, 0x0000000000000000, 0x0000000000000000, 0x0000000000000000, 0x0000000000000000, 0x0000000000000000, 0x0000000000000000, 0x0000000000000000, 0x0000000000000000, 0x0000000000000000, 0x0000000000000000, 0x0000000000000000,
  0x64ec0a6556b8f45c, 0x0000000000000000, 0x0000000000000000, 0x0000000000000000, 0x0000000000000000, 0x0000000000000000, 0x0000000000000000, 0x0000000000000000, 0x0000000000000000, 0x0000000000000000, 0x0000000000000000, 0x0000000000000000,
  0x6f68c9664fda6e37, 0x0000000000000000, 0x0000000000000000, 0x0000000000000000, 0x0000000000000000, 0x0000000000000000, 0x0000000000000000, 0x0000000000000000, 0x0000000000000000, 0x0000000000000000, 0x0000000000000000, 0x0000000000000000,
  0x387356e4516fab6f, 0x35310dce33903e67, 0x45f3e5251d30f912, 0x7c97f480ca428f45, 0x74d5874c20b50de2, 0xff1d5b7cee3dc67f, 0xa04d5d5ac0ff3de9, 0x1cefb5eb7d24580e, 0xf685e1bfcc0104ad, 0x6204dd95db22ead4, 0x8265c6c57c73c440, 0x4f708ab0b4e1e382,
  0xcfc60c7a52fbffa7, 0x9c0c1951d8910306, 0x4d06df27c89819f2, 0x621bdb0e75eca660, 0x343adffd079cee57, 0xa760f0e5debde398, 0xe3110fefd97b188a, 0x0ed6584e6b150297, 0x2b10e625d0d079c0, 0xefa493442057264f, 0xebcfaa7b3f26a2b6, 0xf36bcda28e343e2a,
  0xa1183cb63b67aa9e, 0x40f3e415d5e5b0ba, 0xc51fc2367eff7b15, 0xe07fe5f3aebc649f, 0xc9cb2be56968e8aa, 0x648600db69078a0e, 0x4e9135ab1256edb9, 0x00382c73435556c2, 0x1d78cafac9150ddf, 0xb8df60ab6215a233, 0xa7a65ba31f8fcd9a, 0x907d436dd964006b,
  0x3bdf7fd528633b97, 0x265adb359c0cc0f8, 0xf16cfc4034b39614, 0x71f0751b08fa0947, 0x3165eda4b5403a37, 0xca30fc5680467e46, 0x4c743354d37777c5, 0x3d1f0a4e6bba4a09, 0xc0c2e289afa75181, 0x1e4fa2ad948978b7, 0x2a226a127a0bb26a, 0xe61738a70357ce76]

/-- `ALL_ROUND_CONSTANTS[k]` as a total function (in the source, indexing out
of range panics; only in-range indices are ever used). -/
def arc (k : ℕ) : ℕ := ALL_ROUND_CONSTANTS.getD k 0

/-- `MDS_MATRIX_DIAG: [u64; 12]` from the `impl Poseidon for GoldilocksField`
in `poseidon2_goldilocks.rs`. -/
def MDS_MATRIX_DIAG : Fin 12 → ℕ :=
  ![0xcf6f77ac16722af9, 0x3fd4c0d74672aebc, 0x9b72bf1c1c3d08a8, 0xe4940f84b71e4ac2,
    0x61b27b077118bc72, 0x2efd8379b8e661e2, 0x858edcf353df0341, 0x2d9c20affb5c4516,
    0x5120143f0695defb, 0x62fc898ae34a5c5b, 0xa3d9560c99123ed2, 0x98fd739d8e7fc933]

/-- `FAST_PARTIAL_ROUND_CONSTANTS: [u64; N_PARTIAL_ROUNDS]` from
`poseidon2_goldilocks.rs`. -/
def FAST_PARTIAL_ROUND_CONSTANTS : List ℕ := [
  0xe3ecbb6ba1e16211, 0x70f5b3266792bbb6, 0xe7560e690634757e, 0xafd0202bc7eaf66e,
  0x349f4c5871f220fd, 0x3697eb3e31529e0d, 0x7735d5b0622d9900, 0x5f5b58b9cf997668,
  0x645534b6548af9d9, 0x4232d29d91a426a8, 0xb987278aed485d35, 0x6dabeef669bb406e,
  0x35ee78288b749d40, 0x6dcd560f14af0fc3, 0x71ed3dc007ea6383, 0x8b6b51caab7f5b6f,
  0xcf2e8cc4181dbfa8, 0xa01d3f1c306f825a, 0xccee646a5d8ddb87, 0x70df6f277cbaffeb,
  0x64ec0a6556b8f45c, 0x6f68c9664fda6e37]

/-- `FAST_PARTIAL_ROUND_CONSTANTS[i]` as a total function. -/
def fprc (i : ℕ) : ℕ := FAST_PARTIAL_ROUND_CONSTANTS.getD i 0

/-! ### The `u128` deferred-reduction arithmetic of `mds_layer` -/

/-- The first loop of `mds_layer`: the `result_u128` array, computed from the
64-bit lane representatives in plain natural-number (`u128`) arithmetic.
Lane `i` belongs to the 4-lane group starting at `b = 4 * (i / 4)`. -/
def resultU (s : ℕ → ℕ) (i : ℕ) : ℕ :=
  let b := 4 * (i / 4)
  let t0 := s b + s (b + 1)
  let t1 := s (b + 2) + s (b + 3)
  let t2 := t1 + 2 * s (b + 1)
  let t3 := t0 + 2 * s (b + 3)
  let t4 := t3 + 4 * t1
  let t5 := t2 + 4 * t0
  if i % 4 = 0 then t3 + t5
  else if i % 4 = 1 then t5
  else if i % 4 = 2 then t2 + t4
  else t4

/-- The `stored` array of `mds_layer`:
`stored[j] = result_u128[j] + result_u128[4 + j] + result_u128[8 + j]`. -/
def storedU (s : ℕ → ℕ) (j : ℕ) : ℕ := resultU s j + resultU s (4 + j) + resultU s (8 + j)

/-- The `u128` value `sum = result_u128[i] + stored[i % 4]` accumulated for
lane `i` before the single deferred reduction. -/
def mdsSumU (s : ℕ → ℕ) (i : ℕ) : ℕ := resultU s i + storedU s (i % 4)

/-- The decomposition `(sum as u64, (sum >> 64) as u32)` of a `u128` value. -/
def split96 (sum : ℕ) : ℕ × ℕ := (sum % 2 ^ 64, sum / 2 ^ 64 % 2 ^ 32)

/-- Modelled from the spec: the external field capability's
`from_noncanonical_u96` conversion (`poseidon2.rs` consumes it from the field
trait, whose implementation is outside this repository's sources); it reduces
the 96-bit value `lo + 2^64 * hi` into the field. -/
def from_noncanonical_u96 (lohi : ℕ × ℕ) : Gold := ((lohi.1 + 2 ^ 64 * lohi.2 : ℕ) : Gold)

/-- The `to_noncanonical_u64` representatives of the twelve lanes (canonical
values, each `< P < 2^64`), padded with `0` outside `0..12`. -/
def valRep (s : Fin 12 → Gold) : ℕ → ℕ :=
  fun j => if h : j < 12 then (s ⟨j, h⟩).val else 0

/-- `Poseidon::mds_layer`: the full linear mixing layer over the base field,
with all accumulation in `u128` integers and one `from_noncanonical_u96`
reduction per lane. -/
def mds_layer (s : Fin 12 → Gold) : Fin 12 → Gold :=
  fun i => from_noncanonical_u96 (split96 (mdsSumU (valRep s) i.val))

/-- The `u128` running sum of all twelve lane representatives computed by
`mds_partial_layer_fast` (`sum = state[0]; for i in 1..12 { sum += state[i] }`,
left-associated). -/
def partialSumU (s : ℕ → ℕ) : ℕ :=
  s 0 + s 1 + s 2 + s 3 + s 4 + s 5 + s 6 + s 7 + s 8 + s 9 + s 10 + s 11

/-- `multiply_accumulate` of the field capability: `x + y * t`. -/
def multiply_accumulate {A : Type} [CommRing A] (x y t : A) : A := x + y * t

/-- `Poseidon::mds_partial_layer_fast`: the fast partial-round mixing over the
base field.  The all-lane sum is accumulated in `u128`, reduced once with
`from_noncanonical_u96`, and each output lane is
`sum.multiply_accumulate(state[i], from_canonical_u64(MDS_MATRIX_DIAG[i]))`. -/
def mds_partial_layer_fast (s : Fin 12 → Gold) : Fin 12 → Gold :=
  let sum := from_noncanonical_u96 (split96 (partialSumU (valRep s)))
  fun i => multiply_accumulate sum (s i) ((MDS_MATRIX_DIAG i : ℕ) : Gold)

/-- `Poseidon::constant_layer`: adds `ALL_ROUND_CONSTANTS[i + 12 * round_ctr]`
to lane `i` (the source uses the unsafe `add_canonical_u64`, whose contract is
ordinary field addition of a canonical constant). -/
def constant_layer (s : Fin 12 → Gold) (round_ctr : ℕ) : Fin 12 → Gold :=
  fun i => s i + ((arc (i.val + 12 * round_ctr) : ℕ) : Gold)

/-- `Poseidon::sbox_monomial`: `x ↦ x^7` computed as in the source,
`x3 * x4` with `x2 = x²`, `x4 = x2²`, `x3 = x * x2`.  Generic over the ring,
exactly as the source is generic over `F: FieldExtension<D>`. -/
def sbox_monomial {A : Type} [CommRing A] (x : A) : A :=
  let x2 := x * x
  let x4 := x2 * x2
  let x3 := x * x2
  x3 * x4

/-- `Poseidon::sbox_layer`: applies `sbox_monomial` to every lane. -/
def sbox_layer (s : Fin 12 → Gold) : Fin 12 → Gold := fun i => sbox_monomial (s i)

/-! ### Round structure -/

/-- One iteration of the loop in `Poseidon::full_rounds`: constant layer,
S-box layer, full MDS layer, and a round-counter increment. -/
def full_round (sc : (Fin 12 → Gold) × ℕ) : (Fin 12 → Gold) × ℕ :=
  (mds_layer (sbox_layer (constant_layer sc.1 sc.2)), sc.2 + 1)

/-- `Poseidon::full_rounds`: `HALF_N_FULL_ROUNDS = 4` iterations of
`full_round` (the loop unrolled). -/
def full_rounds (sc : (Fin 12 → Gold) × ℕ) : (Fin 12 → Gold) × ℕ :=
  full_round (full_round (full_round (full_round sc)))

/-- One iteration of the loop in `Poseidon::partial_rounds`: add
`FAST_PARTIAL_ROUND_CONSTANTS[i]` to lane 0, apply the S-box to lane 0, then
apply `mds_partial_layer_fast` to the whole state. -/
def partial_round (s : Fin 12 → Gold) (i : ℕ) : Fin 12 → Gold :=
  mds_partial_layer_fast (Function.update s 0 (sbox_monomial (s 0 + ((fprc i : ℕ) : Gold))))

/-- `Poseidon::partial_rounds`: the loop over `i in 0..N_PARTIAL_ROUNDS`,
followed by a single round-counter increment of `N_PARTIAL_ROUNDS`. -/
def partial_rounds (sc : (Fin 12 → Gold) × ℕ) : (Fin 12 → Gold) × ℕ :=
  ((List.range N_PARTIAL_ROUNDS).foldl partial_round sc.1, sc.2 + N_PARTIAL_ROUNDS)

/-- `Poseidon::poseidon` with its round counter: initial MDS layer, first
batch of full rounds, partial rounds, second batch of full rounds. -/
def poseidon_ctr (input : Fin 12 → Gold) : (Fin 12 → Gold) × ℕ :=
  full_rounds (partial_rounds (full_rounds (mds_layer input, 0)))

/-- `Poseidon::poseidon`: the full permutation. -/
def poseidon (input : Fin 12 → Gold) : Fin 12 → Gold := (poseidon_ctr input).1

/-! ### Extension-field generalizations

The source functions `constant_layer_field`, `sbox_layer_field`,
`mds_layer_field` and `mds_partial_layer_fast_field` are generic over
`F: FieldExtension<D, BaseField = Self>`.  The extension-field implementation
itself lives outside this repository's sources; a degree-`D` extension is an
arbitrary commutative ring `A` whose `TWO`, `from_canonical_u8(4)` and
`from_canonical_u64(c)` constants are the images of the corresponding base
constants, i.e. the numerals `(2 : A)`, `(4 : A)`, `(c : A)`, and the
lane-wise embedding of the base field is a ring homomorphism `Gold →+* A`. -/

/-- A width-12 state padded with `0` outside `0..12` (array accesses in the
source are always in range). -/
def extState {A : Type} [CommRing A] (s : Fin 12 → A) : ℕ → A :=
  fun j => if h : j < 12 then s ⟨j, h⟩ else 0

/-- `Poseidon::constant_layer_field`. -/
def constant_layer_field {A : Type} [CommRing A] (s : Fin 12 → A) (round_ctr : ℕ) :
    Fin 12 → A :=
  fun i => s i + ((arc (i.val + 12 * round_ctr) : ℕ) : A)

/-- `Poseidon::sbox_layer_field`. -/
def sbox_layer_field {A : Type} [CommRing A] (s : Fin 12 → A) : Fin 12 → A :=
  fun i => sbox_monomial (s i)

/-- The first loop of `Poseidon::mds_layer_field`: the `result` array, using
`multiply_accumulate` with the constants `F::TWO` and `from_canonical_u8(4)`. -/
def resultF {A : Type} [CommRing A] (s : ℕ → A) (i : ℕ) : A :=
  let b := 4 * (i / 4)
  let t0 := s b + s (b + 1)
  let t1 := s (b + 2) + s (b + 3)
  let t2 := multiply_accumulate t1 (s (b + 1)) 2
  let t3 := multiply_accumulate t0 (s (b + 3)) 2
  let t4 := multiply_accumulate t3 t1 4
  let t5 := multiply_accumulate t2 t0 4
  if i % 4 = 0 then t3 + t5
  else if i % 4 = 1 then t5
  else if i % 4 = 2 then t2 + t4
  else t4

/-- The `stored` array of `Poseidon::mds_layer_field`. -/
def storedF {A : Type} [CommRing A] (s : ℕ → A) (j : ℕ) : A :=
  resultF s j + resultF s (4 + j) + resultF s (8 + j)

/-- `Poseidon::mds_layer_field`: the full linear mixing layer in field
operations, lane `i` being `result[i] + stored[i % 4]`. -/
def mds_layer_field {A : Type} [CommRing A] (s : Fin 12 → A) : Fin 12 → A :=
  fun i => resultF (extState s) i.val + storedF (extState s) (i.val % 4)

/-- `Poseidon::mds_partial_layer_fast_field`: the all-lane sum in field
operations, then `sum.multiply_accumulate(state[i],
from_canonical_u64(MDS_MATRIX_DIAG[i]))` per lane. -/
def mds_partial_layer_fast_field {A : Type} [CommRing A] (s : Fin 12 → A) : Fin 12 → A :=
  let sum := extState s 0 + extState s 1 + extState s 2 + extState s 3 + extState s 4 +
    extState s 5 + extState s 6 + extState s 7 + extState s 8 + extState s 9 +
    extState s 10 + extState s 11
  fun i => multiply_accumulate sum (s i) ((MDS_MATRIX_DIAG i : ℕ) : A)

/-! ### The dedicated MDS gate (`poseidon2_mds.rs`)

Wire values of a row are a map from wire index to value; a wire `Range` is a
`(start, stop)` pair; a `Target` is a `(row, column)` pair; an
`ExtensionTarget` is a row together with its wire range.  An element of the
`ExtensionAlgebra` of `F::Extension` is its coordinate vector `Fin D → A`
over the extension field `A` (the algebra operations used by the gate —
addition and `scalar_mul` by an embedded scalar — act coordinate-wise). -/

/-- `PoseidonMdsGate::wires_input(i) = i * D..(i + 1) * D`. -/
def wires_input (D i : ℕ) : ℕ × ℕ := (i * D, (i + 1) * D)

/-- `PoseidonMdsGate::wires_output(i) = (12 + i) * D..(12 + i + 1) * D`. -/
def wires_output (D i : ℕ) : ℕ × ℕ := ((12 + i) * D, (12 + i + 1) * D)

/-- `Gate::num_wires` for the MDS gate: `2 * D * SPONGE_WIDTH`. -/
def num_wires (D : ℕ) : ℕ := 2 * D * 12

/-- `Gate::num_constants` for the MDS gate. -/
def num_constants : ℕ := 0

/-- `Gate::degree` for the MDS gate. -/
def degree : ℕ := 1

/-- `Gate::num_constraints` for the MDS gate: `SPONGE_WIDTH * D`. -/
def num_constraints (D : ℕ) : ℕ := 12 * D

/-- The list of wire indices of a `(start, stop)` range. -/
def rangeToList (r : ℕ × ℕ) : List ℕ := (List.range (r.2 - r.1)).map (fun k => r.1 + k)

/-- The first loop of `PoseidonMdsGate::mds_layer_algebra`, on coordinate
vectors of extension-algebra elements: `t2`/`t3` are computed by two
repeated additions and `t4`/`t5` with `scalar_mul(four)`. -/
def resultAlg {A : Type} [CommRing A] {D : ℕ} (s : ℕ → Fin D → A) (i : ℕ) : Fin D → A :=
  let b := 4 * (i / 4)
  let t0 := s b + s (b + 1)
  let t1 := s (b + 2) + s (b + 3)
  let t2 := t1 + s (b + 1) + s (b + 1)
  let t3 := t0 + s (b + 3) + s (b + 3)
  let t4 := t3 + (4 : A) • t1
  let t5 := t2 + (4 : A) • t0
  if i % 4 = 0 then t3 + t5
  else if i % 4 = 1 then t5
  else if i % 4 = 2 then t2 + t4
  else t4

/-- The `stored` array of `PoseidonMdsGate::mds_layer_algebra`. -/
def storedAlg {A : Type} [CommRing A] {D : ℕ} (s : ℕ → Fin D → A) (j : ℕ) : Fin D → A :=
  resultAlg s j + resultAlg s (4 + j) + resultAlg s (8 + j)

/-- `PoseidonMdsGate::mds_layer_algebra`. -/
def mds_layer_algebra {A : Type} [CommRing A] {D : ℕ} (s : Fin 12 → Fin D → A) :
    Fin 12 → Fin D → A :=
  fun i => resultAlg (extState s) i.val + storedAlg (extState s) (i.val % 4)

/-- `EvaluationVars::get_local_ext_algebra`: the coordinate vector read from a
wire range of the row. -/
def get_local_ext_algebra {A : Type} (w : ℕ → A) (D : ℕ) (r : ℕ × ℕ) : Fin D → A :=
  fun k => w (r.1 + k.val)

/-- `Gate::eval_unfiltered` for the MDS gate: for each lane, the `D`
coordinates of `declared_output - computed_output`, flattened in lane order
(`to_basefield_array`). -/
def eval_unfiltered {A : Type} [CommRing A] (D : ℕ) (w : ℕ → A) : List A :=
  let inputs : Fin 12 → Fin D → A := fun i => get_local_ext_algebra w D (wires_input D i)
  let computed := mds_layer_algebra inputs
  (List.finRange 12).flatMap (fun i =>
    List.ofFn (fun k : Fin D => get_local_ext_algebra w D (wires_output D i) k - computed i k))

/-- `PoseidonMdsGenerator::dependencies`: for each lane `i in 0..12`, the
targets `(row, c)` for every wire `c` in `wires_input(i)`. -/
def dependencies (row D : ℕ) : List (ℕ × ℕ) :=
  (List.range 12).flatMap (fun i => (rangeToList (wires_input D i)).map (fun c => (row, c)))

/-- `PoseidonMdsGenerator::run_once`: reads the twelve extension values from
the input wire ranges of the row, applies `F::mds_layer_field`, and writes
lane `i`'s result to the extension target `(row, wires_output(i))`.  The
returned list models the `out_buffer` writes in order. -/
def run_once {A : Type} [CommRing A] (row D : ℕ) (witness : ℕ × (ℕ × ℕ) → A) :
    List ((ℕ × (ℕ × ℕ)) × A) :=
  let inputs : Fin 12 → A := fun i => witness (row, wires_input D i)
  let outputs := mds_layer_field inputs
  (List.finRange 12).map (fun i => ((row, wires_output D i), outputs i))

/-! ### Matrices for the MDS equivalence claims -/

/-- The entries of the cheap 4×4 matrix realized by the first stage of the
mixing layer (rows `(5,7,1,3)`, `(4,6,1,1)`, `(1,3,5,7)`, `(1,1,4,6)`). -/
def m4e : ℕ → ℕ → ℕ
  | 0, 0 => 5
  | 0, 1 => 7
  | 0, 2 => 1
  | 0, 3 => 3
  | 1, 0 => 4
  | 1, 1 => 6
  | 1, 2 => 1
  | 1, 3 => 1
  | 2, 0 => 1
  | 2, 1 => 3
  | 2, 2 => 5
  | 2, 3 => 7
  | 3, 0 => 1
  | 3, 1 => 1
  | 3, 2 => 4
  | 3, 3 => 6
  | _, _ => 0

/-- The dense 12×12 MDS matrix: the 3×3 block matrix with blocks `2·M4` on
the diagonal and `M4` off it, where `M4` has entries `m4e`. -/
def MDS_FULL : Matrix (Fin 12) (Fin 12) Gold :=
  Matrix.of fun i j =>
    (((if i.val / 4 = j.val / 4 then 2 else 1) * m4e (i.val % 4) (j.val % 4) : ℕ) : Gold)

/-- The all-ones 12×12 matrix (the circulant part of the partial-round MDS
matrix `J + D`). -/
def Jmat : Matrix (Fin 12) (Fin 12) Gold := Matrix.of fun _ _ => 1

/-- The diagonal part of the partial-round MDS matrix, with diagonal
`MDS_MATRIX_DIAG`. -/
def Dmat : Matrix (Fin 12) (Fin 12) Gold :=
  Matrix.diagonal fun i => ((MDS_MATRIX_DIAG i : ℕ) : Gold)

/-- Modelled from the spec: the spec's wording of the cheap 4×4 group map,
`t0=s0+s1, t1=s2+s3, t2=t1+2·s1, t3=t0+2·s3, t4=t3+4·t1, t5=t2+4·t0`,
with outputs `(t3+t5, t5, t2+t4, t4)`. -/
def specGroup (s0 s1 s2 s3 : Gold) : Fin 4 → Gold :=
  let t0 := s0 + s1
  let t1 := s2 + s3
  let t2 := t1 + 2 * s1
  let t3 := t0 + 2 * s3
  let t4 := t3 + 4 * t1
  let t5 := t2 + 4 * t0
  ![t3 + t5, t5, t2 + t4, t4]

/-- Modelled from the spec: the group outputs for the three 4-lane groups. -/
def specGroupOut (s : Fin 12 → Gold) (g : Fin 3) : Fin 4 → Gold :=
  specGroup (s ⟨4 * g.val, by omega⟩) (s ⟨4 * g.val + 1, by omega⟩)
    (s ⟨4 * g.val + 2, by omega⟩) (s ⟨4 * g.val + 3, by omega⟩)

/-- Modelled from the spec: the full mixing layer as the spec words it —
apply the group map to each group, then add, to every lane at position
`p = i % 4`, the sum of the three group outputs at position `p`. -/
def mds_spec (s : Fin 12 → Gold) : Fin 12 → Gold :=
  fun i =>
    specGroupOut s ⟨i.val / 4, by omega⟩ ⟨i.val % 4, by omega⟩ +
      (specGroupOut s 0 ⟨i.val % 4, by omega⟩ + specGroupOut s 1 ⟨i.val % 4, by omega⟩ +
        specGroupOut s 2 ⟨i.val % 4, by omega⟩)

/-- A state given by twelve canonical `u64` values. -/
def pstate (v : Fin 12 → ℕ) : Fin 12 → Gold := fun i => ((v i : ℕ) : Gold)

/-- The expected output of `poseidon` on the all-zero state, from the
`test_vectors` table in `poseidon2_goldilocks.rs`. -/
def expected0 : Fin 12 → ℕ :=
  ![0x40e4c449028440b0, 0x8d5233d4e1ff2fa3, 0xd8809d1ad0ac1e59, 0x5b9f29d2bf3a7634,
    0xb65233ad9dac1203, 0x7ad00f9950e4cac3, 0x98a0e39e8dac0fcf, 0xd307875ffd783c9b,
    0x52eedea15d5113c1, 0xdd0572185641c6cd, 0xf16bca8e9ac45377, 0xe8608627f86706ee]

/-! ### Bounds on the `u128` intermediates -/

theorem valRep_lt (s : Fin 12 → Gold) (j : ℕ) : valRep s j < 2 ^ 64 := by
  unfold valRep
  split
  · exact lt_trans (ZMod.val_lt _) (by norm_num [P])
  · norm_num

theorem resultU_lt (u : ℕ → ℕ) (h : ∀ j, u j < 2 ^ 64) (i : ℕ) :
    resultU u i < 2 ^ 69 := by
  have h0 := h (4 * (i / 4))
  have h1 := h (4 * (i / 4) + 1)
  have h2 := h (4 * (i / 4) + 2)
  have h3 := h (4 * (i / 4) + 3)
  simp only [resultU]
  split_ifs <;> omega

theorem mdsSumU_lt (u : ℕ → ℕ) (h : ∀ j, u j < 2 ^ 64) (i : ℕ) :
    mdsSumU u i < 2 ^ 96 := by
  have h0 := resultU_lt u h i
  have h1 := resultU_lt u h (i % 4)
  have h2 := resultU_lt u h (4 + i % 4)
  have h3 := resultU_lt u h (8 + i % 4)
  simp only [mdsSumU, storedU]
  omega

theorem partialSumU_lt (u : ℕ → ℕ) (h : ∀ j, u j < 2 ^ 64) :
    partialSumU u < 2 ^ 96 := by
  have h0 := h 0
  have h1 := h 1
  have h2 := h 2
  have h3 := h 3
  have h4 := h 4
  have h5 := h 5
  have h6 := h 6
  have h7 := h 7
  have h8 := h 8
  have h9 := h 9
  have h10 := h 10
  have h11 := h 11
  simp only [partialSumU]
  omega

/-- For a `u128` value below `2^96`, the `(sum as u64, (sum >> 64) as u32)`
decomposition is lossless. -/
theorem split96_recompose (n : ℕ) (h : n < 2 ^ 96) :
    (split96 n).1 + 2 ^ 64 * (split96 n).2 = n := by
  simp only [split96]
  have hdiv : n / 2 ^ 64 < 2 ^ 32 := Nat.div_lt_of_lt_mul (by norm_num at h ⊢; omega)
  rw [Nat.mod_eq_of_lt hdiv]
  exact Nat.mod_add_div n (2 ^ 64)

/-- Below `2^96` the deferred reduction returns exactly the field value of
the unreduced integer sum. -/
theorem from_split96 (n : ℕ) (h : n < 2 ^ 96) :
    from_noncanonical_u96 (split96 n) = ((n : ℕ) : Gold) := by
  unfold from_noncanonical_u96
  exact congrArg _ (split96_recompose n h)

/-! ### The `u128` path versus the field-operation path -/

theorem resultU_cast (u : ℕ → ℕ) (i : ℕ) :
    ((resultU u i : ℕ) : Gold) = resultF (fun j => ((u j : ℕ) : Gold)) i := by
  simp only [resultU, resultF, multiply_accumulate]
  split_ifs <;> push_cast <;> ring

theorem mdsSumU_cast (u : ℕ → ℕ) (i : ℕ) :
    ((mdsSumU u i : ℕ) : Gold) =
      resultF (fun j => ((u j : ℕ) : Gold)) i + storedF (fun j => ((u j : ℕ) : Gold)) (i % 4) := by
  simp only [mdsSumU, storedU, storedF, Nat.cast_add, resultU_cast]

theorem valRep_cast (s : Fin 12 → Gold) (j : ℕ) :
    ((valRep s j : ℕ) : Gold) = extState s j := by
  by_cases h : j < 12
  · simp [valRep, extState, h, ZMod.natCast_val]
  · simp [valRep, extState, h]

/-- `mds_layer` (u128 deferred-reduction arithmetic) agrees with
`mds_layer_field` (field operations) on the base field. -/
theorem mds_layer_eq_field (s : Fin 12 → Gold) : mds_layer s = mds_layer_field s := by
  funext i
  have hrep : ∀ j, valRep s j < 2 ^ 64 := valRep_lt s
  have hcast : (fun j => ((valRep s j : ℕ) : Gold)) = extState s := funext (valRep_cast s)
  show from_noncanonical_u96 (split96 (mdsSumU (valRep s) i.val)) = _
  rw [from_split96 _ (mdsSumU_lt _ hrep _), mdsSumU_cast, hcast]
  rfl

/-- `mds_partial_layer_fast` agrees with `mds_partial_layer_fast_field` on
the base field. -/
theorem mds_partial_layer_fast_eq_field (s : Fin 12 → Gold) :
    mds_partial_layer_fast s = mds_partial_layer_fast_field s := by
  funext i
  have hrep : ∀ j, valRep s j < 2 ^ 64 := valRep_lt s
  have h1 := from_split96 _ (partialSumU_lt _ hrep)
  simp only [mds_partial_layer_fast, mds_partial_layer_fast_field]
  rw [h1]
  simp only [partialSumU, Nat.cast_add, valRep_cast]

/-! ### Ring-homomorphism commutation of the generic layers -/

theorem resultF_map {A B : Type} [CommRing A] [CommRing B] (φ : A →+* B)
    (u : ℕ → A) (i : ℕ) : resultF (fun j => φ (u j)) i = φ (resultF u i) := by
  simp only [resultF, multiply_accumulate]
  split_ifs <;> simp [map_add, map_mul, map_ofNat]

theorem storedF_map {A B : Type} [CommRing A] [CommRing B] (φ : A →+* B)
    (u : ℕ → A) (j : ℕ) : storedF (fun k => φ (u k)) j = φ (storedF u j) := by
  simp only [storedF, map_add, resultF_map]

theorem extState_map {A B : Type} [CommRing A] [CommRing B] (φ : A →+* B)
    (s : Fin 12 → A) : extState (fun i => φ (s i)) = fun j => φ (extState s j) := by
  funext j
  unfold extState
  split <;> simp

theorem mds_layer_field_map {A B : Type} [CommRing A] [CommRing B] (φ : A →+* B)
    (s : Fin 12 → A) :
    mds_layer_field (fun i => φ (s i)) = fun i => φ (mds_layer_field s i) := by
  funext i
  simp only [mds_layer_field, extState_map, resultF_map, storedF_map, map_add]

theorem mds_partial_layer_fast_field_map {A B : Type} [CommRing A] [CommRing B]
    (φ : A →+* B) (s : Fin 12 → A) :
    mds_partial_layer_fast_field (fun i => φ (s i)) =
      fun i => φ (mds_partial_layer_fast_field s i) := by
  funext i
  simp only [mds_partial_layer_fast_field, multiply_accumulate, extState_map, map_add,
    map_mul, map_natCast]

/-- Claim C1: for every extension field of the base field — modelled as an
arbitrary commutative ring `A` with the lane-wise embedding `φ : Gold →+* A`,
which covers every extension degree `D` — and every base-field state, the
extension-field layer variants (`constant_layer_field`, `sbox_layer_field`
with `sbox_monomial`, `mds_layer_field`, `mds_partial_layer_fast_field`)
applied to the embedded state equal the embedding of the corresponding
base-field layers' results; in particular the `u128` integer-arithmetic
`mds_layer` agrees through the embedding with `mds_layer_field`. -/
theorem extension_layers_agree (A : Type) [CommRing A] (φ : Gold →+* A)
    (s : Fin 12 → Gold) (round_ctr : ℕ) :
    (constant_layer_field (fun i => φ (s i)) round_ctr =
      fun i => φ (constant_layer s round_ctr i)) ∧
    (sbox_layer_field (fun i => φ (s i)) = fun i => φ (sbox_layer s i)) ∧
    (mds_layer_field (fun i => φ (s i)) = fun i => φ (mds_layer s i)) ∧
    (mds_partial_layer_fast_field (fun i => φ (s i)) =
      fun i => φ (mds_partial_layer_fast s i)) := by
  refine ⟨?_, ?_, ?_, ?_⟩
  · funext i
    simp [constant_layer_field, constant_layer, map_add, map_natCast]
  · funext i
    simp [sbox_layer_field, sbox_layer, sbox_monomial, map_mul]
  · simp only [mds_layer_eq_field]
    exact mds_layer_field_map φ s
  · simp only [mds_partial_layer_fast_eq_field]
    exact mds_partial_layer_fast_field_map φ s

/-- Claim C6: the permutation consumes exactly
`2 * HALF_N_FULL_ROUNDS + N_PARTIAL_ROUNDS = 30` rounds for every input: the
final round counter equals `N_ROUNDS`, each full round increments it by one,
and the partial-round phase increments it once by `N_PARTIAL_ROUNDS`. -/
theorem round_count_invariant :
    (∀ input : Fin 12 → Gold, (poseidon_ctr input).2 = N_ROUNDS) ∧
    (∀ sc : (Fin 12 → Gold) × ℕ, (full_round sc).2 = sc.2 + 1) ∧
    (∀ sc : (Fin 12 → Gold) × ℕ, (partial_rounds sc).2 = sc.2 + N_PARTIAL_ROUNDS) ∧
    2 * HALF_N_FULL_ROUNDS + N_PARTIAL_ROUNDS = 30 ∧ N_ROUNDS = 30 := by
  refine ⟨?_, fun sc => rfl, fun sc => rfl, by decide, by decide⟩
  intro input
  simp [poseidon_ctr, full_rounds, full_round, partial_rounds, N_ROUNDS,
    N_FULL_ROUNDS_TOTAL, HALF_N_FULL_ROUNDS, N_PARTIAL_ROUNDS]

/-- Claim C7: the constant added to lane 0 in the `i`-th partial round equals
the flat table entry for round `4 + i` at lane 0, i.e.
`FAST_PARTIAL_ROUND_CONSTANTS[i] = ALL_ROUND_CONSTANTS[(4 + i) * 12]`, and
every other lane's entry in those 22 rows is zero. -/
theorem partial_round_constants_consistent :
    ∀ i : Fin 22, fprc i.val = arc ((4 + i.val) * 12) ∧
      ∀ j : Fin 11, arc ((4 + i.val) * 12 + (j.val + 1)) = 0 := by decide

/-- Claim C8: `poseidon` applies one unconditional `mds_layer` to the raw
input before any round constant and before any S-box (pre-round whitening),
and the first full round operates on this whitened state (its constant layer
reads `mds_layer input` at round counter 0). -/
theorem pre_round_whitening :
    ∀ input : Fin 12 → Gold,
      poseidon input = (full_rounds (partial_rounds (full_rounds (mds_layer input, 0)))).1 ∧
      full_rounds (mds_layer input, 0) =
        full_round (full_round (full_round
          (mds_layer (sbox_layer (constant_layer (mds_layer input) 0)), 1))) :=
  fun _ => ⟨rfl, rfl⟩


/-!
The test-vector computation `poseidon [0; 12]` is verified one round at a
time: `pz0` is the initial whitening MDS layer, `pzf0`-`pzf3` the first four
full rounds, `pzp0`-`pzp21` the 22 partial rounds, `pzg0`-`pzg3` the final
four full rounds.  Each step is checked by kernel computation on literal
states.
-/

theorem pz0 : mds_layer (fun _ => (0 : Gold)) = pstate ![0x0, 0x0, 0x0, 0x0, 0x0, 0x0, 0x0, 0x0, 0x0, 0x0, 0x0, 0x0] := by decide

theorem pzf0 : full_round (pstate ![0x0, 0x0, 0x0, 0x0, 0x0, 0x0, 0x0, 0x0, 0x0, 0x0, 0x0, 0x0], 0) = (pstate ![0x453952dccff96d3b, 0x833a06bc71ab43a5, 0xf434be57860eef9d, 0xa4cb9a5688d83f7a, 0xc6743aaa4623579a, 0x4167221c38645a0e, 0x9b9a12c9f7a1f39c, 0x476e92217d286b0b, 0x7d31c0f80216a4b8, 0x4cb3ef8c13ff2a1f, 0xedc21f8ee5e8d4de, 0xdf2d43525bc7c8bb], 1) := by decide

theorem pzf1 : full_round (pstate ![0x453952dccff96d3b, 0x833a06bc71ab43a5, 0xf434be57860eef9d, 0xa4cb9a5688d83f7a, 0xc6743aaa4623579a, 0x4167221c38645a0e, 0x9b9a12c9f7a1f39c, 0x476e92217d286b0b, 0x7d31c0f80216a4b8, 0x4cb3ef8c13ff2a1f, 0xedc21f8ee5e8d4de, 0xdf2d43525bc7c8bb], 1) = (pstate ![0x31a2ffee42f35457, 0x8162071d3098b536, 0x43e73bc0742208bc, 0x6d27c2b239dbf6f8, 0x3b9d50259f8e4be7, 0xe0eddec43d38c79, 0x823de73762984e17, 0x6f0283b5b9617c09, 0xc428d9ee009816c3, 0x3660511310d21e31, 0x7e587e479d9cd562, 0x4a1401c6fb283ce0], 2) := by decide

theorem pzf2 : full_round (pstate ![0x31a2ffee42f35457, 0x8162071d3098b536, 0x43e73bc0742208bc, 0x6d27c2b239dbf6f8, 0x3b9d50259f8e4be7, 0xe0eddec43d38c79, 0x823de73762984e17, 0x6f0283b5b9617c09, 0xc428d9ee009816c3, 0x3660511310d21e31, 0x7e587e479d9cd562, 0x4a1401c6fb283ce0], 2) = (pstate ![0xb7033640dd0c9f48, 0xb257b0a6bd7236b7, 0xbeb6d41875e68e1, 0x708377e736f5bb55, 0x1eed92dd3d494345, 0xa785f3f3bceaadd8, 0x5da520aa96874ba, 0xd5e05e693ef497e0, 0xca2440f132fd4e05, 0x21edb0bd147b0a17, 0x7de48d3d4f737691, 0x7993c52e121db8e0], 3) := by decide

theorem pzf3 : full_round (pstate ![0xb7033640dd0c9f48, 0xb257b0a6bd7236b7, 0xbeb6d41875e68e1, 0x708377e736f5bb55, 0x1eed92dd3d494345, 0xa785f3f3bceaadd8, 0x5da520aa96874ba, 0xd5e05e693ef497e0, 0xca2440f132fd4e05, 0x21edb0bd147b0a17, 0x7de48d3d4f737691, 0x7993c52e121db8e0], 3) = (pstate ![0xb2356b65216f2fb7, 0x1e68c8571a30c39b, 0x410d044b900f7d6d, 0xbc4e39e0ead310c9, 0x7c79e681c58d501e, 0x4835f3d460b3b5d9, 0x9c217a2c8a6ff09c, 0x171137f699f10625, 0x5476e0a8cb78c39c, 0x290f2ac6b0242c3, 0x60ce41ff7053402c, 0x1670c7c02d72cf09], 4) := by decide

theorem pzp0 : partial_round (pstate ![0xb2356b65216f2fb7, 0x1e68c8571a30c39b, 0x410d044b900f7d6d, 0xbc4e39e0ead310c9, 0x7c79e681c58d501e, 0x4835f3d460b3b5d9, 0x9c217a2c8a6ff09c, 0x171137f699f10625, 0x5476e0a8cb78c39c, 0x290f2ac6b0242c3, 0x60ce41ff7053402c, 0x1670c7c02d72cf09]) 0 = pstate ![0x38a833e53746f680, 0x7c318bc161a103b9, 0xc4d5b3e03481fc9b, 0xbabfd1070540e64a, 0x8d36fe47ba89f5f2, 0xf627770ba31a042, 0xcca216ba47c0f51a, 0x4ada57c63f6f923d, 0x3641bbc2193c2345, 0xd93d37d040d3d8bf, 0xa7b3e3f246d41b40, 0xce5dc06ee6cf12f0] := by decide

theorem pzp1 : partial_round (pstate ![0x38a833e53746f680, 0x7c318bc161a103b9, 0xc4d5b3e03481fc9b, 0xbabfd1070540e64a, 0x8d36fe47ba89f5f2, 0xf627770ba31a042, 0xcca216ba47c0f51a, 0x4ada57c63f6f923d, 0x3641bbc2193c2345, 0xd93d37d040d3d8bf, 0xa7b3e3f246d41b40, 0xce5dc06ee6cf12f0]) 1 = pstate ![0x3f15dc51d4decc03, 0xe9c86bd7e8b6149f, 0xd6434b8ddcfabc99, 0xd22caba6657ee463, 0x1b7828b1c85b6ef, 0x7f37381428a9f2aa, 0x43ce71d56302aeec, 0x11dec5a25232f200, 0x311a56c82a520a13, 0xbadf0f2f27243233, 0x2fd5b8df9f4d62d9, 0x468f023606b16858] := by decide

theorem pzp2 : partial_round (pstate ![0x3f15dc51d4decc03, 0xe9c86bd7e8b6149f, 0xd6434b8ddcfabc99, 0xd22caba6657ee463, 0x1b7828b1c85b6ef, 0x7f37381428a9f2aa, 0x43ce71d56302aeec, 0x11dec5a25232f200, 0x311a56c82a520a13, 0xbadf0f2f27243233, 0x2fd5b8df9f4d62d9, 0x468f023606b16858]) 2 = pstate ![0xe2132252e0216e55, 0x4c9dd26358291de3, 0x24c9f94259fb11bc, 0x1476bcefe9eac87, 0x6cab39f873213f6e, 0x3771917c39fa1769, 0x8b007361a9a768ea, 0xa7014888430b8386, 0x618d1f212a4255a0, 0xb909503c3a3ba28b, 0x16335cdf4ddfc909, 0x47698f4bb6f110be] := by decide

theorem pzp3 : partial_round (pstate ![0xe2132252e0216e55, 0x4c9dd26358291de3, 0x24c9f94259fb11bc, 0x1476bcefe9eac87, 0x6cab39f873213f6e, 0x3771917c39fa1769, 0x8b007361a9a768ea, 0xa7014888430b8386, 0x618d1f212a4255a0, 0xb909503c3a3ba28b, 0x16335cdf4ddfc909, 0x47698f4bb6f110be]) 3 = pstate ![0xc1eaf8b648ad60c8, 0x215b9e9b5d301740, 0xad5767c988b63148, 0x16d30c63d96124dd, 0xcc83f2bdfd64dea4, 0xb7c72bdfaa893816, 0x2ba4e2b89ab2fa9c, 0x3bdee2531f2e9125, 0x9a6e160d6660ec8, 0x6dc57652858129c2, 0xa41204c620049028, 0xc2d10b6f25864938] := by decide

theorem pzp4 : partial_round (pstate ![0xc1eaf8b648ad60c8, 0x215b9e9b5d301740, 0xad5767c988b63148, 0x16d30c63d96124dd, 0xcc83f2bdfd64dea4, 0xb7c72bdfaa893816, 0x2ba4e2b89ab2fa9c, 0x3bdee2531f2e9125, 0x9a6e160d6660ec8, 0x6dc57652858129c2, 0xa41204c620049028, 0xc2d10b6f25864938]) 4 = pstate ![0xfcd17639bd643c56, 0xffed70d1065902a6, 0x9ba546438f169d91, 0xc68095aa2c4f171d, 0x7ad2946a30c31a0e, 0x60f77a7d3120936f, 0x5b5e0c45bfcdbfe2, 0x1f5e6ca982e6c9b2, 0x274389ad3215abdc, 0x8c216aeaf0b55530, 0x281ad2b71b4c52ce, 0xc0bf208d2b6908f5] := by decide

theorem pzp5 : partial_round (pstate ![0xfcd17639bd643c56, 0xffed70d1065902a6, 0x9ba546438f169d91, 0xc68095aa2c4f171d, 0x7ad2946a30c31a0e, 0x60f77a7d3120936f, 0x5b5e0c45bfcdbfe2, 0x1f5e6ca982e6c9b2, 0x274389ad3215abdc, 0x8c216aeaf0b55530, 0x281ad2b71b4c52ce, 0xc0bf208d2b6908f5]) 5 = pstate ![0x79da797a41bccdb3, 0xb19b4421ca8abb45, 0x30d018d684cbc05b, 0xa78ac2c821404e1f, 0x78e32265b9321283, 0xe9df4fe40fb08ea2, 0xb8083d701afae58c, 0xfac35f1787b839de, 0xfe259efb8d623bb9, 0xd9b8af0a1514c6d7, 0xc74508c3003e0340, 0x3125bfb201464d78] := by decide

theorem pzp6 : partial_round (pstate ![0x79da797a41bccdb3, 0xb19b4421ca8abb45, 0x30d018d684cbc05b, 0xa78ac2c821404e1f, 0x78e32265b9321283, 0xe9df4fe40fb08ea2, 0xb8083d701afae58c, 0xfac35f1787b839de, 0xfe259efb8d623bb9, 0xd9b8af0a1514c6d7, 0xc74508c3003e0340, 0x3125bfb201464d78]) 6 = pstate ![0x2ae9427fb2330ad2, 0xf77a5087e813ab43, 0x73523c05f1d40bdc, 0x27ddcbd100e6844c, 0x2a7e21aad6aa1e33, 0xb018a04514a46a6b, 0xf7d0a0f7c2e47dbe, 0x19a8e5c50a5912aa, 0x593faa52f0848c25, 0x9c59c5aaf4f28532, 0xf20aeb06ef827a8f, 0x7442b2aa4f5d17aa] := by decide

theorem pzp7 : partial_round (pstate ![0x2ae9427fb2330ad2, 0xf77a5087e813ab43, 0x73523c05f1d40bdc, 0x27ddcbd100e6844c, 0x2a7e21aad6aa1e33, 0xb018a04514a46a6b, 0xf7d0a0f7c2e47dbe, 0x19a8e5c50a5912aa, 0x593faa52f0848c25, 0x9c59c5aaf4f28532, 0xf20aeb06ef827a8f, 0x7442b2aa4f5d17aa]) 7 = pstate ![0x6fcc4e45d33df4e6, 0x14e09c557a1c04, 0xd57d0c40c3be15f7, 0x8a5782d48a2bac91, 0x2b032710fe5c74b6, 0x14f4f3af1d7eecb, 0xb7a6f7521ddae495, 0x81b013dd08540cf4, 0x302c307ec7637fdb, 0xb00cc9b81b692a86, 0x39c9f50980aafb61, 0xcd54abb0a10d2508] := by decide

theorem pzp8 : partial_round (pstate ![0x6fcc4e45d33df4e6, 0x14e09c557a1c04, 0xd57d0c40c3be15f7, 0x8a5782d48a2bac91, 0x2b032710fe5c74b6, 0x14f4f3af1d7eecb, 0xb7a6f7521ddae495, 0x81b013dd08540cf4, 0x302c307ec7637fdb, 0xb00cc9b81b692a86, 0x39c9f50980aafb61, 0xcd54abb0a10d2508]) 8 = pstate ![0x7c083ff05a809efb, 0x967e498426474b92, 0xcb4c4ec7bf3de9a3, 0xb110b712f715cc07, 0x4c4878f007ca7371, 0xf17fbde8aee140be, 0x1bd1e2f514b7eed, 0x5e4e1b5a114512af, 0x29a58e85cc1b7302, 0x28e84a73ffc466e4, 0xcbb2f94707f84be5, 0x52e112e4cabcb56d] := by decide

theorem pzp9 : partial_round (pstate ![0x7c083ff05a809efb, 0x967e498426474b92, 0xcb4c4ec7bf3de9a3, 0xb110b712f715cc07, 0x4c4878f007ca7371, 0xf17fbde8aee140be, 0x1bd1e2f514b7eed, 0x5e4e1b5a114512af, 0x29a58e85cc1b7302, 0x28e84a73ffc466e4, 0xcbb2f94707f84be5, 0x52e112e4cabcb56d]) 9 = pstate ![0xe2d8f96f77631994, 0xe8f1b70477520fc1, 0x6c00e8f6509c8240, 0x47b1627179c433b7, 0x23a2450cb5a2743, 0x15334c3ebdf948fb, 0x41a479869044d8e9, 0xdae5bf23614edd1e, 0x17cf008ca8ef6f2c, 0x77f18a649f9bbd1, 0xe8655ca1d3267991, 0x26b73846550592b6] := by decide

theorem pzp10 : partial_round (pstate ![0xe2d8f96f77631994, 0xe8f1b70477520fc1, 0x6c00e8f6509c8240, 0x47b1627179c433b7, 0x23a2450cb5a2743, 0x15334c3ebdf948fb, 0x41a479869044d8e9, 0xdae5bf23614edd1e, 0x17cf008ca8ef6f2c, 0x77f18a649f9bbd1, 0xe8655ca1d3267991, 0x26b73846550592b6]) 10 = pstate ![0x2923c882a795a82d, 0x9e5dc42a62c3181d, 0x845aecc8697cafbe, 0x5da268d455dbbdb2, 0x96ea229d6784cacd, 0xb1e3c4dc6cfb9ec7, 0x5b01d83fe715bda, 0xcd9bd252b5f9bc87, 0x94db4d719ff4d1e0, 0xbdca476fe5c62e47, 0xf01052f5d5f9bb1, 0x1cf71819b4a08b9f] := by decide

theorem pzp11 : partial_round (pstate ![0x2923c882a795a82d, 0x9e5dc42a62c3181d, 0x845aecc8697cafbe, 0x5da268d455dbbdb2, 0x96ea229d6784cacd, 0xb1e3c4dc6cfb9ec7, 0x5b01d83fe715bda, 0xcd9bd252b5f9bc87, 0x94db4d719ff4d1e0, 0xbdca476fe5c62e47, 0xf01052f5d5f9bb1, 0x1cf71819b4a08b9f]) 11 = pstate ![0x8fcb707f01395152, 0x6b60916928a70ecd, 0xc18c3fcc3352bed0, 0xc98bab59d8f2a386, 0x799d9ee631bd5fb1, 0x94aff81cb38d2bec, 0x8e4cf43bcd67eb31, 0xcb5a9e054a80427e, 0x91dd94e8d6008dbc, 0xc08a15fd76c09ed0, 0xb8e87fd3b40995c0, 0xe10bd4676a75d548] := by decide

theorem pzp12 : partial_round (pstate ![0x8fcb707f01395152, 0x6b60916928a70ecd, 0xc18c3fcc3352bed0, 0xc98bab59d8f2a386, 0x799d9ee631bd5fb1, 0x94aff81cb38d2bec, 0x8e4cf43bcd67eb31, 0xcb5a9e054a80427e, 0x91dd94e8d6008dbc, 0xc08a15fd76c09ed0, 0xb8e87fd3b40995c0, 0xe10bd4676a75d548]) 12 = pstate ![0x7131b21ca313be6c, 0x3731829b50715693, 0x302b5d2f79fcb180, 0x2f10b42d6e7c46d3, 0x657657b98e7ae286, 0x905249bf43d5afe0, 0x5b00c3514d203f6c, 0xe7508466504a5e3b, 0xc4e46882e7e6ac0e, 0x50c67728d9165132, 0xc2b100b9dcc6c766, 0xce99a24a32c9cf87] := by decide

theorem pzp13 : partial_round (pstate ![0x7131b21ca313be6c, 0x3731829b50715693, 0x302b5d2f79fcb180, 0x2f10b42d6e7c46d3, 0x657657b98e7ae286, 0x905249bf43d5afe0, 0x5b00c3514d203f6c, 0xe7508466504a5e3b, 0xc4e46882e7e6ac0e, 0x50c67728d9165132, 0xc2b100b9dcc6c766, 0xce99a24a32c9cf87]) 13 = pstate ![0x15b58d17e71a7bcc, 0xb6af0f42a44024e5, 0x3514478302a920fa, 0xc029d63c6077959f, 0x1765984e9351211a, 0x500aea668b93e510, 0x194962b611978392, 0xbc3dfd788438d031, 0x62be353c98900112, 0x3e8fbee9ab2a0c01, 0x57a14069817517c4, 0xa96ebad513a800d4] := by decide

theorem pzp14 : partial_round (pstate ![0x15b58d17e71a7bcc, 0xb6af0f42a44024e5, 0x3514478302a920fa, 0xc029d63c6077959f, 0x1765984e9351211a, 0x500aea668b93e510, 0x194962b611978392, 0xbc3dfd788438d031, 0x62be353c98900112, 0x3e8fbee9ab2a0c01, 0x57a14069817517c4, 0xa96ebad513a800d4]) 14 = pstate ![0x8e41a924477fb908, 0xc0ebf6fbf086ff2a, 0x2abb0c9bc93fd292, 0x3749b72f4cca7d05, 0xb54d7a375d774ca2, 0x670c56d894f6dc84, 0x27bd32817f5ce32c, 0x93c230036ac357a0, 0x76800e5e3137d598, 0x2cb6861ec5e22ab6, 0xcd9a89efb150fdfa, 0xa48d68b70fe71f19] := by decide

theorem pzp15 : partial_round (pstate ![0x8e41a924477fb908, 0xc0ebf6fbf086ff2a, 0x2abb0c9bc93fd292, 0x3749b72f4cca7d05, 0xb54d7a375d774ca2, 0x670c56d894f6dc84, 0x27bd32817f5ce32c, 0x93c230036ac357a0, 0x76800e5e3137d598, 0x2cb6861ec5e22ab6, 0xcd9a89efb150fdfa, 0xa48d68b70fe71f19]) 15 = pstate ![0x1f5f773cb3d5456f, 0xf9bd4270b65b15c6, 0x51f0a3250e051dcb, 0x17a946a9e14ba5f3, 0xee075eb95611c610, 0x2fb2ea550b2ba805, 0xf04d0639fa58ec64, 0xacf53854846b6690, 0x41355587c45f11be, 0x1d0af59dacabecad, 0x63eb9c63da5a87, 0xd6ec0af5b3524332] := by decide

theorem pzp16 : partial_round (pstate ![0x1f5f773cb3d5456f, 0xf9bd4270b65b15c6, 0x51f0a3250e051dcb, 0x17a946a9e14ba5f3, 0xee075eb95611c610, 0x2fb2ea550b2ba805, 0xf04d0639fa58ec64, 0xacf53854846b6690, 0x41355587c45f11be, 0x1d0af59dacabecad, 0x63eb9c63da5a87, 0xd6ec0af5b3524332]) 16 = pstate ![0x61583ac7ca94981, 0x5e980f60011fceb, 0x2d456892408b82b, 0x8549928da0a1ac2c, 0xf587972066e0ac04, 0xdee7faa11c28182e, 0x14ef697993dfe764, 0x32ebd9b2d0bb8ff7, 0xbf66d9521a215827, 0xc42109ea78b2ab3e, 0xcd30141c4145f133, 0x8fd78a542619476e] := by decide

theorem pzp17 : partial_round (pstate ![0x61583ac7ca94981, 0x5e980f60011fceb, 0x2d456892408b82b, 0x8549928da0a1ac2c, 0xf587972066e0ac04, 0xdee7faa11c28182e, 0x14ef697993dfe764, 0x32ebd9b2d0bb8ff7, 0xbf66d9521a215827, 0xc42109ea78b2ab3e, 0xcd30141c4145f133, 0x8fd78a542619476e]) 17 = pstate ![0x8bef8ba154cef403, 0x51cb8b46f5a26d2, 0xebfc42dfe845379a, 0xff0d3e6a10e15988, 0xea80e25766ffe641, 0xfd8611c00d0bef66, 0xd39068e382fbe7b2, 0x5f80734e80c65abc, 0xf8399798eeb16763, 0xf72d4e8b662095b5, 0xadf3cb5d6179951, 0xd9b9d6843dcd68dc] := by decide

theorem pzp18 : partial_round (pstate ![0x8bef8ba154cef403, 0x51cb8b46f5a26d2, 0xebfc42dfe845379a, 0xff0d3e6a10e15988, 0xea80e25766ffe641, 0xfd8611c00d0bef66, 0xd39068e382fbe7b2, 0x5f80734e80c65abc, 0xf8399798eeb16763, 0xf72d4e8b662095b5, 0xadf3cb5d6179951, 0xd9b9d6843dcd68dc]) 18 = pstate ![0xce929fc7ca9300aa, 0x6c943f4bf124be8a, 0x1769fa390ae608d9, 0xfb734c1098c62878, 0x14c0f8fe02b70a9, 0x6431f0d471d66e34, 0x51d054dc22c5e758, 0x911552b804c71e4e, 0x55380b5c80b4cf46, 0x7cc8c05c617fa3a, 0x972da7bf1f9c32a6, 0xe448b336858dc480] := by decide

theorem pzp19 : partial_round (pstate ![0xce929fc7ca9300aa, 0x6c943f4bf124be8a, 0x1769fa390ae608d9, 0xfb734c1098c62878, 0x14c0f8fe02b70a9, 0x6431f0d471d66e34, 0x51d054dc22c5e758, 0x911552b804c71e4e, 0x55380b5c80b4cf46, 0x7cc8c05c617fa3a, 0x972da7bf1f9c32a6, 0xe448b336858dc480]) 19 = pstate ![0x4fe4c1fc1353cbd8, 0x9ba4576459724489, 0x4451ad5ed86fd5f, 0xe8ba52273ca55c96, 0x6a87e4925efc4515, 0x55a517c0166e73e0, 0x97eab50833f185f8, 0x949608a298c80863, 0x911dc2b6854449e5, 0x7ac7f0e77239b393, 0xf563d3ae5f440c6, 0xdd3d819ca0ebecc4] := by decide

theorem pzp20 : partial_round (pstate ![0x4fe4c1fc1353cbd8, 0x9ba4576459724489, 0x4451ad5ed86fd5f, 0xe8ba52273ca55c96, 0x6a87e4925efc4515, 0x55a517c0166e73e0, 0x97eab50833f185f8, 0x949608a298c80863, 0x911dc2b6854449e5, 0x7ac7f0e77239b393, 0xf563d3ae5f440c6, 0xdd3d819ca0ebecc4]) 20 = pstate ![0x86039f93f1177769, 0xb6df055e7a7c86b0, 0x29b09dcad8b73e8b, 0xd8a9e78f8419a368, 0xb562bcf3de5151e1, 0x818ab1e40254ce0a, 0x55a143058a4bf8a1, 0x4a599810c861a595, 0x862643e97061b949, 0x125268a48f172d33, 0xc59fa9eb0354ce8e, 0x547a008692c75e1b] := by decide

theorem pzp21 : partial_round (pstate ![0x86039f93f1177769, 0xb6df055e7a7c86b0, 0x29b09dcad8b73e8b, 0xd8a9e78f8419a368, 0xb562bcf3de5151e1, 0x818ab1e40254ce0a, 0x55a143058a4bf8a1, 0x4a599810c861a595, 0x862643e97061b949, 0x125268a48f172d33, 0xc59fa9eb0354ce8e, 0x547a008692c75e1b]) 21 = pstate ![0x7c23731e95d76191, 0x537d112af0e1ca15, 0xe4c6470caff8eb7e, 0x12bf128b74c3a017, 0xd744005e1cf07339, 0x3ec9665539626126, 0x523bd4b4bf4679ac, 0x353ef79753c2cd2d, 0xfd9537a71eb42b99, 0x41cc592a93d4a52a, 0xba8bb2d34e2c9d65, 0xb874e7a7306f4a71] := by decide

theorem pzg0 : full_round (pstate ![0x7c23731e95d76191, 0x537d112af0e1ca15, 0xe4c6470caff8eb7e, 0x12bf128b74c3a017, 0xd744005e1cf07339, 0x3ec9665539626126, 0x523bd4b4bf4679ac, 0x353ef79753c2cd2d, 0xfd9537a71eb42b99, 0x41cc592a93d4a52a, 0xba8bb2d34e2c9d65, 0xb874e7a7306f4a71], 26) = (pstate ![0xcca0cd38e31e585, 0xd758d21f463a1db9, 0xbd498c4453982af9, 0x19f4272b441f28b9, 0x4ab9bc5c1d034899, 0x4a866e744fc13c4a, 0xddf10ef7301102c9, 0x67be5314938eacad, 0x676021c13dece6a6, 0x4a7b8aacd806575e, 0x600aae8a1a29b795, 0x563517e4cb33ef5], 27) := by decide

theorem pzg1 : full_round (pstate ![0xcca0cd38e31e585, 0xd758d21f463a1db9, 0xbd498c4453982af9, 0x19f4272b441f28b9, 0x4ab9bc5c1d034899, 0x4a866e744fc13c4a, 0xddf10ef7301102c9, 0x67be5314938eacad, 0x676021c13dece6a6, 0x4a7b8aacd806575e, 0x600aae8a1a29b795, 0x563517e4cb33ef5], 27) = (pstate ![0x6337b289a93aadcb, 0x4f23e2be8a75cfb0, 0x17f1cb8d3c18cb1f, 0x17ebee8998f8b1db, 0x90dfedba4ba1e064, 0x83fcbfa8c29cb428, 0xe40d934270b0b81f, 0x7a3e95556f28e678, 0x711d0810506a35db, 0x8ae305d4857a1e14, 0x1c740adee7c73bb7, 0x7fd2547adeab0184], 28) := by decide

theorem pzg2 : full_round (pstate ![0x6337b289a93aadcb, 0x4f23e2be8a75cfb0, 0x17f1cb8d3c18cb1f, 0x17ebee8998f8b1db, 0x90dfedba4ba1e064, 0x83fcbfa8c29cb428, 0xe40d934270b0b81f, 0x7a3e95556f28e678, 0x711d0810506a35db, 0x8ae305d4857a1e14, 0x1c740adee7c73bb7, 0x7fd2547adeab0184], 28) = (pstate ![0xf381de3bb58ff48f, 0x6490aad4e93ef702, 0x4be3d78cefb40d34, 0x938ee78d74ba78a8, 0xef40569f93faeb32, 0xbf24300f7bb580c5, 0xa168f0597ce4f5, 0xf429f49bd5ff0ed0, 0xc9eff3569e9e4038, 0xafc0b45b5456ce69, 0xb2721f6c10eacab5, 0x69972bf918ec1b7d], 29) := by decide

theorem pzg3 : full_round (pstate ![0xf381de3bb58ff48f, 0x6490aad4e93ef702, 0x4be3d78cefb40d34, 0x938ee78d74ba78a8, 0xef40569f93faeb32, 0xbf24300f7bb580c5, 0xa168f0597ce4f5, 0xf429f49bd5ff0ed0, 0xc9eff3569e9e4038, 0xafc0b45b5456ce69, 0xb2721f6c10eacab5, 0x69972bf918ec1b7d], 29) = (pstate ![0x40e4c449028440b0, 0x8d5233d4e1ff2fa3, 0xd8809d1ad0ac1e59, 0x5b9f29d2bf3a7634, 0xb65233ad9dac1203, 0x7ad00f9950e4cac3, 0x98a0e39e8dac0fcf, 0xd307875ffd783c9b, 0x52eedea15d5113c1, 0xdd0572185641c6cd, 0xf16bca8e9ac45377, 0xe8608627f86706ee], 30) := by decide

/-- Claim C2: on the Goldilocks field, `poseidon` applied to the all-zero
state `[0; 12]` returns exactly the state whose canonical `u64`
representatives are `expected0`, with exact equality in every lane. -/
theorem poseidon_zero_vector :
    ∀ i : Fin 12, (poseidon (fun _ => (0 : Gold)) i).val = expected0 i := by
  have hr : List.range 22 = [0, 1, 2, 3, 4, 5, 6, 7, 8, 9, 10, 11, 12, 13, 14, 15, 16, 17, 18, 19, 20, 21] := by decide
  have h1 : full_rounds (pstate ![0x0, 0x0, 0x0, 0x0, 0x0, 0x0, 0x0, 0x0, 0x0, 0x0, 0x0, 0x0], 0) = (pstate ![0xb2356b65216f2fb7, 0x1e68c8571a30c39b, 0x410d044b900f7d6d, 0xbc4e39e0ead310c9, 0x7c79e681c58d501e, 0x4835f3d460b3b5d9, 0x9c217a2c8a6ff09c, 0x171137f699f10625, 0x5476e0a8cb78c39c, 0x290f2ac6b0242c3, 0x60ce41ff7053402c, 0x1670c7c02d72cf09], 4) := by
    unfold full_rounds
    rw [pzf0, pzf1, pzf2, pzf3]
  have h2 : (List.range 22).foldl partial_round (pstate ![0xb2356b65216f2fb7, 0x1e68c8571a30c39b, 0x410d044b900f7d6d, 0xbc4e39e0ead310c9, 0x7c79e681c58d501e, 0x4835f3d460b3b5d9, 0x9c217a2c8a6ff09c, 0x171137f699f10625, 0x5476e0a8cb78c39c, 0x290f2ac6b0242c3, 0x60ce41ff7053402c, 0x1670c7c02d72cf09]) = pstate ![0x7c23731e95d76191, 0x537d112af0e1ca15, 0xe4c6470caff8eb7e, 0x12bf128b74c3a017, 0xd744005e1cf07339, 0x3ec9665539626126, 0x523bd4b4bf4679ac, 0x353ef79753c2cd2d, 0xfd9537a71eb42b99, 0x41cc592a93d4a52a, 0xba8bb2d34e2c9d65, 0xb874e7a7306f4a71] := by
    rw [hr]
    simp only [List.foldl_cons, List.foldl_nil, pzp0, pzp1, pzp2, pzp3, pzp4, pzp5, pzp6, pzp7, pzp8, pzp9, pzp10, pzp11, pzp12, pzp13, pzp14, pzp15, pzp16, pzp17, pzp18, pzp19, pzp20, pzp21]
  have h3 : partial_rounds (pstate ![0xb2356b65216f2fb7, 0x1e68c8571a30c39b, 0x410d044b900f7d6d, 0xbc4e39e0ead310c9, 0x7c79e681c58d501e, 0x4835f3d460b3b5d9, 0x9c217a2c8a6ff09c, 0x171137f699f10625, 0x5476e0a8cb78c39c, 0x290f2ac6b0242c3, 0x60ce41ff7053402c, 0x1670c7c02d72cf09], 4) = (pstate ![0x7c23731e95d76191, 0x537d112af0e1ca15, 0xe4c6470caff8eb7e, 0x12bf128b74c3a017, 0xd744005e1cf07339, 0x3ec9665539626126, 0x523bd4b4bf4679ac, 0x353ef79753c2cd2d, 0xfd9537a71eb42b99, 0x41cc592a93d4a52a, 0xba8bb2d34e2c9d65, 0xb874e7a7306f4a71], 26) := by
    unfold partial_rounds N_PARTIAL_ROUNDS
    rw [h2]
  have h4 : full_rounds (pstate ![0x7c23731e95d76191, 0x537d112af0e1ca15, 0xe4c6470caff8eb7e, 0x12bf128b74c3a017, 0xd744005e1cf07339, 0x3ec9665539626126, 0x523bd4b4bf4679ac, 0x353ef79753c2cd2d, 0xfd9537a71eb42b99, 0x41cc592a93d4a52a, 0xba8bb2d34e2c9d65, 0xb874e7a7306f4a71], 26) = (pstate ![0x40e4c449028440b0, 0x8d5233d4e1ff2fa3, 0xd8809d1ad0ac1e59, 0x5b9f29d2bf3a7634, 0xb65233ad9dac1203, 0x7ad00f9950e4cac3, 0x98a0e39e8dac0fcf, 0xd307875ffd783c9b, 0x52eedea15d5113c1, 0xdd0572185641c6cd, 0xf16bca8e9ac45377, 0xe8608627f86706ee], 30) := by
    unfold full_rounds
    rw [pzg0, pzg1, pzg2, pzg3]
  have hp : poseidon (fun _ => (0 : Gold)) = pstate ![0x40e4c449028440b0, 0x8d5233d4e1ff2fa3, 0xd8809d1ad0ac1e59, 0x5b9f29d2bf3a7634, 0xb65233ad9dac1203, 0x7ad00f9950e4cac3, 0x98a0e39e8dac0fcf, 0xd307875ffd783c9b, 0x52eedea15d5113c1, 0xdd0572185641c6cd, 0xf16bca8e9ac45377, 0xe8608627f86706ee] := by
    unfold poseidon poseidon_ctr
    rw [pz0, h1, h3, h4]
  simp only [hp]
  decide

theorem sum_univ_twelve {A : Type} [CommRing A] (g : Fin 12 → A) :
    ∑ j, g j =
      g ⟨0, by omega⟩ + g ⟨1, by omega⟩ + g ⟨2, by omega⟩ + g ⟨3, by omega⟩ +
        g ⟨4, by omega⟩ + g ⟨5, by omega⟩ + g ⟨6, by omega⟩ + g ⟨7, by omega⟩ +
        g ⟨8, by omega⟩ + g ⟨9, by omega⟩ + g ⟨10, by omega⟩ + g ⟨11, by omega⟩ := by
  have h : (Finset.univ : Finset (Fin 12)) =
      {⟨0, by omega⟩, ⟨1, by omega⟩, ⟨2, by omega⟩, ⟨3, by omega⟩, ⟨4, by omega⟩,
        ⟨5, by omega⟩, ⟨6, by omega⟩, ⟨7, by omega⟩, ⟨8, by omega⟩, ⟨9, by omega⟩,
        ⟨10, by omega⟩, ⟨11, by omega⟩} := by decide
  rw [h]
  simp +decide [Finset.sum_insert]
  ring

set_option maxHeartbeats 2000000 in
/-- Claim C3: `mds_layer` computes, on each 4-lane group, the
`t0, …, t5` combination with outputs `(t3+t5, t5, t2+t4, t4)` and then adds
the cross-group position sums (`mds_spec`, worded from the spec), and the
composite map equals multiplication by the dense 12×12 matrix `MDS_FULL`
over the field. -/
theorem mds_layer_dense_matrix (s : Fin 12 → Gold) :
    mds_layer s = mds_spec s ∧ mds_layer s = MDS_FULL.mulVec s := by
  rw [mds_layer_eq_field]
  constructor
  · funext i
    fin_cases i <;>
      (simp [mds_layer_field, resultF, storedF, extState, multiply_accumulate, mds_spec,
        specGroupOut, specGroup]
       ring)
  · funext i
    rw [show MDS_FULL.mulVec s i = ∑ j, MDS_FULL i j * s j from rfl, sum_univ_twelve]
    fin_cases i <;>
      (simp +decide [mds_layer_field, resultF, storedF, extState, multiply_accumulate,
        MDS_FULL, m4e]
       ring)

/-- Claim C4: `mds_partial_layer_fast` sets output lane `i` to
`(sum of all 12 input lanes) + MDS_MATRIX_DIAG[i] · input[i]`, and its result
equals multiplication by the dense matrix `J + D` (all-ones plus diagonal). -/
theorem mds_partial_layer_fast_dense_matrix (s : Fin 12 → Gold) :
    (∀ i, mds_partial_layer_fast s i =
      (∑ j, s j) + ((MDS_MATRIX_DIAG i : ℕ) : Gold) * s i) ∧
    mds_partial_layer_fast s = (Jmat + Dmat).mulVec s := by
  have key : ∀ i, mds_partial_layer_fast s i =
      (∑ j, s j) + ((MDS_MATRIX_DIAG i : ℕ) : Gold) * s i := by
    intro i
    rw [mds_partial_layer_fast_eq_field, sum_univ_twelve]
    simp [mds_partial_layer_fast_field, multiply_accumulate, extState]
    ring
  refine ⟨key, ?_⟩
  funext i
  have hj : Jmat.mulVec s i = ∑ j, s j := by
    rw [show Jmat.mulVec s i = ∑ j, Jmat i j * s j from rfl]
    simp [Jmat]
  have hd : Dmat.mulVec s i = ((MDS_MATRIX_DIAG i : ℕ) : Gold) * s i := by
    simp [Dmat, Matrix.mulVec_diagonal]
  rw [key i, Matrix.add_mulVec, Pi.add_apply, hj, hd]

/-! ### Wire-range bookkeeping for the MDS gate -/

theorem rangeToList_block (a D : ℕ) :
    rangeToList (a * D, (a + 1) * D) = (List.range D).map (fun k => a * D + k) := by
  simp only [rangeToList]
  rw [show (a + 1) * D - a * D = D by rw [Nat.succ_mul]; omega]

theorem blocks_cover (n D : ℕ) :
    (List.range n).flatMap (fun i => (List.range D).map (fun k => i * D + k)) =
      List.range (n * D) := by
  induction n with
  | zero => simp
  | succ n ih =>
    rw [List.range_succ, List.flatMap_append, ih]
    simp only [List.flatMap_cons, List.flatMap_nil, List.append_nil]
    rw [show (n + 1) * D = n * D + D from Nat.succ_mul n D, List.range_add]

theorem input_blocks_cover (D : ℕ) :
    (List.range 12).flatMap (fun i => rangeToList (wires_input D i)) =
      List.range (12 * D) := by
  simp only [wires_input, rangeToList_block]
  exact blocks_cover 12 D

theorem output_blocks_shift (D : ℕ) :
    (List.range 12).flatMap (fun i => rangeToList (wires_output D i)) =
      ((List.range 12).flatMap (fun i => rangeToList (wires_input D i))).map
        (fun x => 12 * D + x) := by
  rw [List.map_flatMap]
  have h : ∀ i : ℕ, rangeToList (wires_output D i) =
      (rangeToList (wires_input D i)).map (fun x => 12 * D + x) := by
    intro i
    simp only [wires_output, wires_input, rangeToList_block, List.map_map]
    congr 1
    funext k
    simp only [Function.comp_apply]
    rw [Nat.add_mul]
    omega
  simp only [h]

theorem length_flatMap_const {α β : Type} (l : List α) (f : α → List β) (d : ℕ)
    (h : ∀ a, (f a).length = d) : (l.flatMap f).length = l.length * d := by
  induction l with
  | nil => simp
  | cons a t ih =>
    simp only [List.flatMap_cons, List.length_append, h, ih, List.length_cons, Nat.succ_mul]
    omega

/-- Claim C9: the MDS gate reports `num_wires = 2·D·12`, `num_constants = 0`,
`degree = 1`, `num_constraints = 12·D`; its input block for lane `i` is
`i·D..(i+1)·D` and its output block is `(12+i)·D..(12+i+1)·D`, the 24 blocks
tiling `0..num_wires` exactly (disjoint, exactly covering); and
`eval_unfiltered` returns exactly `num_constraints` residuals on every row
over every extension ring. -/
theorem mds_gate_shape (D : ℕ) :
    num_wires D = 2 * D * 12 ∧ num_constants = 0 ∧ degree = 1 ∧
    num_constraints D = 12 * D ∧
    (∀ i, wires_input D i = (i * D, (i + 1) * D)) ∧
    (∀ i, wires_output D i = ((12 + i) * D, (12 + i + 1) * D)) ∧
    ((List.range 12).flatMap (fun i => rangeToList (wires_input D i)) ++
      (List.range 12).flatMap (fun i => rangeToList (wires_output D i))) =
      List.range (num_wires D) ∧
    (∀ (A : Type) [CommRing A] (w : ℕ → A),
      (eval_unfiltered D w).length = num_constraints D) := by
  refine ⟨rfl, rfl, rfl, rfl, fun i => rfl, fun i => rfl, ?_, ?_⟩
  · rw [output_blocks_shift, input_blocks_cover, ← List.range_add]
    congr 1
    unfold num_wires
    ring
  · intro A _ w
    simp only [eval_unfiltered]
    rw [length_flatMap_const _ _ D (fun a => List.length_ofFn _)]
    simp [List.length_finRange, num_constraints, Nat.mul_comm]

/-- Claim C5: the MDS gate's generator declares as dependencies exactly the
12 input wire blocks of its row (the targets `(row, c)` for `c` ranging over
`0..12·D`, tiled by the blocks `i·D..(i+1)·D`), and its `run_once` writes to
the 12 output wire blocks the outputs of the fast mixing layer applied to the
concrete input values (on concrete base-field values, `mds_layer_field`
coincides with the base-field `mds_layer`). -/
theorem mds_generator_exact (row D : ℕ) :
    dependencies row D = (List.range (12 * D)).map (fun c => (row, c)) ∧
    (∀ witness : ℕ × (ℕ × ℕ) → Gold,
      run_once row D witness = (List.finRange 12).map (fun i =>
        ((row, wires_output D i), mds_layer (fun j => witness (row, wires_input D j)) i))) := by
  constructor
  · rw [dependencies, ← List.map_flatMap, input_blocks_cover]
  · intro witness
    simp only [run_once, ← mds_layer_eq_field]

/-- Claim C10: for lane representatives each `< 2^64`, every `u128`
intermediate of `mds_layer` (`result_u128`, `stored`, the per-lane `sum`) and
the running sum of `mds_partial_layer_fast` are `< 2^96`; the
`(sum as u64, (sum >> 64) as u32)` decomposition is lossless; and the single
`from_noncanonical_u96` reduction yields the exact field value of the
unreduced integer sum. -/
theorem u128_intermediates_bounded (s : ℕ → ℕ) (h : ∀ j, s j < 2 ^ 64) :
    (∀ i, resultU s i < 2 ^ 96) ∧ (∀ j, storedU s j < 2 ^ 96) ∧
    (∀ i, mdsSumU s i < 2 ^ 96 ∧
      (split96 (mdsSumU s i)).1 + 2 ^ 64 * (split96 (mdsSumU s i)).2 = mdsSumU s i ∧
      from_noncanonical_u96 (split96 (mdsSumU s i)) = ((mdsSumU s i : ℕ) : Gold)) ∧
    (partialSumU s < 2 ^ 96 ∧
      (split96 (partialSumU s)).1 + 2 ^ 64 * (split96 (partialSumU s)).2 = partialSumU s ∧
      from_noncanonical_u96 (split96 (partialSumU s)) = ((partialSumU s : ℕ) : Gold)) := by
  have hres : ∀ i, resultU s i < 2 ^ 96 := by
    intro i
    have := resultU_lt s h i
    omega
  have hsto : ∀ j, storedU s j < 2 ^ 96 := by
    intro j
    have h1 := resultU_lt s h j
    have h2 := resultU_lt s h (4 + j)
    have h3 := resultU_lt s h (8 + j)
    simp only [storedU]
    omega
  exact ⟨hres, hsto,
    fun i => ⟨mdsSumU_lt s h i, split96_recompose _ (mdsSumU_lt s h i),
      from_split96 _ (mdsSumU_lt s h i)⟩,
    partialSumU_lt s h, split96_recompose _ (partialSumU_lt s h),
    from_split96 _ (partialSumU_lt s h)⟩

/-- Witness for C10 at the all-zero representative vector. -/
theorem u128_intermediates_bounded_witness :
    (0 : ℕ) < 2 ^ 64 ∧ mdsSumU (fun _ => 0) 0 < 2 ^ 96 ∧
    from_noncanonical_u96 (split96 (partialSumU (fun _ => 0))) =
      ((partialSumU (fun _ => 0) : ℕ) : Gold) :=
  ⟨by decide,
    ((u128_intermediates_bounded (fun _ => 0) (fun j => Nat.two_pow_pos 64)).2.2.1 0).1,
    (u128_intermediates_bounded (fun _ => 0) (fun j => Nat.two_pow_pos 64)).2.2.2.2.2⟩

end Poseidon2
